import Mathlib

/-!
Verification of the Update_manager error-classification and
offline-resilience layer: a shallow embedding of
`src/utils/errorHandler.ts` (error classifier, network diagnostics),
`src/utils/offlineManager.ts` (expiring cache over local storage) and the
configuration import/export utilities, with theorems about the
behaviours stated in the specification.

Modelling conventions:
- JavaScript strings are Lean `String`s; case-insensitive regular
  expression matching is modelled by ASCII case folding (the patterns in
  the source are ASCII).
- `Date.now()` is passed explicitly as an integer `now` parameter
  (milliseconds since the epoch).
- `localStorage` is an association list from keys to stored blobs; the
  external `JSON.stringify`/`JSON.parse` pair is abstracted: a stored
  string that parses as a `{data, timestamp}` record is a `Blob.entry`,
  a stored string on which `JSON.parse` throws is `Blob.corrupt`.
-/

/-! ## Error classifier (`src/utils/errorHandler.ts`) -/

/-- The `type` field of `ErrorInfo`. -/
inductive ErrType where
  | network | api | auth | config | timeout | cors | unknown
deriving BEq, DecidableEq, Repr

/-- The `severity` field of `ErrorInfo`. -/
inductive Severity where
  | low | medium | high | critical
deriving BEq, DecidableEq, Repr

/-- `ErrorInfo` record returned by `analyzeError`.  The optional TS field
`shouldEnableOfflineMode?: boolean` is `none` when a creator omits it. -/
structure ErrorInfo where
  type : ErrType
  severity : Severity
  message : String
  details : Option String
  suggestions : List String
  canRetry : Bool
  shouldEnableOfflineMode : Option Bool
deriving DecidableEq, Repr

/-- A JavaScript error value as consumed by `analyzeError`: either a plain
string or an object with the optional string fields the code inspects
(`message`, `error`, `statusText`, `stack`). -/
inductive JsErr where
  | str (s : String)
  | obj (message : Option String) (error : Option String)
        (statusText : Option String) (stack : Option String)
deriving DecidableEq, Repr

/-- JavaScript truthiness of an optional string field: present and
non-empty. -/
def pickTruthy : Option String → Option String
  | some s => if s = "" then none else some s
  | none => none

/-- `extractErrorMessage` from `errorHandler.ts`: first truthy one of
`error` itself (when a string), `error.message`, `error.error`,
`error.statusText`, else the literal fallback. -/
def extractErrorMessage (error : JsErr) : String :=
  match error with
  | .str s => s
  | .obj m e st _ =>
    match pickTruthy m with
    | some s => s
    | none =>
      match pickTruthy e with
      | some s => s
      | none =>
        match pickTruthy st with
        | some s => s
        | none => "未知错误"

/-- `error?.stack || ''`: the stack of an object error when truthy, else
the empty string (a plain-string error has no `stack` property). -/
def jsErrStack (error : JsErr) : String :=
  match error with
  | .str _ => ""
  | .obj _ _ _ stk =>
    match pickTruthy stk with
    | some s => s
    | none => ""

/-- ASCII case folding of a character list (the `/i` regex flag; all
patterns in the source are ASCII). -/
def lowerChars (l : List Char) : List Char := l.map Char.toLower

/-- Case-insensitive substring test: models `/lit/i.test(s)` for a
literal alternative `lit`. -/
def containsCI (s pat : String) : Bool :=
  decide (lowerChars pat.toList <:+: lowerChars s.toList)

/-- A JavaScript line terminator, not matched by `.` in a regex. -/
def isLineTerm (c : Char) : Bool :=
  c = '\n' || c = '\r' || c.toNat = 0x2028 || c.toNat = 0x2029

/-- Models `/p1.*p2/i.test(s)`: an occurrence of `p1` followed, after a
gap free of line terminators, by an occurrence of `p2` (both literals
case-folded; neither contains a line terminator). -/
def matchesGapCI (s p1 p2 : String) : Bool :=
  let l := lowerChars s.toList
  let a := lowerChars p1.toList
  let b := lowerChars p2.toList
  l.tails.any fun t =>
    decide (a <+: t) &&
      decide (b <:+: (t.drop a.length).takeWhile (fun c => !(isLineTerm c)))

/-- Models `/5\d\x7b2\x7d/.test(s)`: a `'5'` followed by two ASCII
digits somewhere in `s`. -/
def matches5xx (s : String) : Bool :=
  s.toList.tails.any fun t =>
    match t with
    | '5' :: a :: b :: _ => a.isDigit && b.isDigit
    | _ => false

/-- `ERROR_PATTERNS.NETWORK_FAILED` test. -/
def NETWORK_FAILED (s : String) : Bool :=
  containsCI s "net::ERR_FAILED" || containsCI s "Failed to fetch" ||
    containsCI s "Network request failed"

/-- `ERROR_PATTERNS.NETWORK_TIMEOUT` test. -/
def NETWORK_TIMEOUT (s : String) : Bool :=
  containsCI s "timeout" || containsCI s "ETIMEDOUT" ||
    containsCI s "Request timed out"

/-- `ERROR_PATTERNS.NETWORK_OFFLINE` test. -/
def NETWORK_OFFLINE (s : String) : Bool :=
  containsCI s "net::ERR_INTERNET_DISCONNECTED" || containsCI s "offline"

/-- `ERROR_PATTERNS.DNS_FAILED` test. -/
def DNS_FAILED (s : String) : Bool :=
  containsCI s "net::ERR_NAME_NOT_RESOLVED" || containsCI s "DNS"

/-- `ERROR_PATTERNS.CORS_ERROR` test. -/
def CORS_ERROR (s : String) : Bool :=
  containsCI s "CORS" || containsCI s "Cross-Origin" ||
    containsCI s "Access-Control"

/-- `ERROR_PATTERNS.API_UNAUTHORIZED` test. -/
def API_UNAUTHORIZED (s : String) : Bool :=
  containsCI s "401" || containsCI s "Unauthorized" ||
    containsCI s "Invalid token"

/-- `ERROR_PATTERNS.API_FORBIDDEN` test. -/
def API_FORBIDDEN (s : String) : Bool :=
  containsCI s "403" || containsCI s "Forbidden" ||
    containsCI s "Access denied"

/-- `ERROR_PATTERNS.API_NOT_FOUND` test. -/
def API_NOT_FOUND (s : String) : Bool :=
  containsCI s "404" || containsCI s "Not found" ||
    containsCI s "Worker not found"

/-- `ERROR_PATTERNS.API_RATE_LIMIT` test. -/
def API_RATE_LIMIT (s : String) : Bool :=
  containsCI s "429" || containsCI s "Too many requests" ||
    containsCI s "Rate limit"

/-- `ERROR_PATTERNS.API_SERVER_ERROR` test. -/
def API_SERVER_ERROR (s : String) : Bool :=
  matches5xx s || containsCI s "Internal server error" ||
    containsCI s "Service unavailable"

/-- `ERROR_PATTERNS.CONFIG_MISSING` test. -/
def CONFIG_MISSING (s : String) : Bool :=
  containsCI s "API token" || containsCI s "Account ID" ||
    matchesGapCI s "Worker ID" "required" || containsCI s "not configured"

/-- `ERROR_PATTERNS.CONFIG_INVALID` test. -/
def CONFIG_INVALID (s : String) : Bool :=
  matchesGapCI s "Invalid" "format" || containsCI s "Malformed"

/-- `createNetworkFailedError`. -/
def createNetworkFailedError (message : String) : ErrorInfo :=
  { type := .network, severity := .high, message := "网络连接失败",
    details := some message,
    suggestions := ["检查网络连接是否正常", "确认防火墙或代理设置",
      "尝试切换到离线模式继续工作", "检查Cloudflare API服务状态",
      "运行网络诊断获取详细信息"],
    canRetry := true, shouldEnableOfflineMode := some true }

/-- `createTimeoutError`. -/
def createTimeoutError (message : String) : ErrorInfo :=
  { type := .timeout, severity := .medium, message := "请求超时",
    details := some message,
    suggestions := ["检查网络连接速度", "稍后重试", "考虑使用离线模式",
      "检查是否有网络代理影响速度"],
    canRetry := true, shouldEnableOfflineMode := some true }

/-- `createOfflineError`. -/
def createOfflineError (message : String) : ErrorInfo :=
  { type := .network, severity := .high, message := "设备处于离线状态",
    details := some message,
    suggestions := ["检查网络连接", "启用离线模式继续工作",
      "连接网络后重新同步数据"],
    canRetry := false, shouldEnableOfflineMode := some true }

/-- `createDnsError`. -/
def createDnsError (message : String) : ErrorInfo :=
  { type := .network, severity := .high, message := "DNS解析失败",
    details := some message,
    suggestions := ["检查DNS设置", "尝试使用其他DNS服务器（如8.8.8.8）",
      "检查网络连接", "联系网络管理员"],
    canRetry := true, shouldEnableOfflineMode := none }

/-- `createCorsError`. -/
def createCorsError (message : String) : ErrorInfo :=
  { type := .cors, severity := .medium, message := "跨域请求被阻止",
    details := some message,
    suggestions := ["这通常是浏览器安全策略导致的", "尝试使用HTTPS访问",
      "检查Cloudflare Worker的CORS设置", "考虑使用浏览器扩展或代理"],
    canRetry := true, shouldEnableOfflineMode := none }

/-- `createAuthError`. -/
def createAuthError (message : String) : ErrorInfo :=
  { type := .auth, severity := .high, message := "API Token无效或已过期",
    details := some message,
    suggestions := ["检查API Token是否正确", "确认Token是否已过期",
      "重新生成API Token", "检查Token权限设置"],
    canRetry := false, shouldEnableOfflineMode := none }

/-- `createForbiddenError`. -/
def createForbiddenError (message : String) : ErrorInfo :=
  { type := .auth, severity := .high, message := "权限不足",
    details := some message,
    suggestions := ["检查API Token权限", "确认Account ID是否正确",
      "联系管理员获取必要权限", "检查Worker访问权限设置"],
    canRetry := false, shouldEnableOfflineMode := none }

/-- `createNotFoundError`. -/
def createNotFoundError (message : String) : ErrorInfo :=
  { type := .api, severity := .medium, message := "资源未找到",
    details := some message,
    suggestions := ["检查Worker ID是否正确", "确认Account ID是否正确",
      "检查Worker是否已部署", "验证API端点URL"],
    canRetry := false, shouldEnableOfflineMode := none }

/-- `createRateLimitError`. -/
def createRateLimitError (message : String) : ErrorInfo :=
  { type := .api, severity := .medium, message := "API调用频率超限",
    details := some message,
    suggestions := ["等待一段时间后重试", "减少API调用频率",
      "考虑升级API计划", "使用离线模式减少API调用"],
    canRetry := true, shouldEnableOfflineMode := some true }

/-- `createServerError`. -/
def createServerError (message : String) : ErrorInfo :=
  { type := .api, severity := .high, message := "Cloudflare服务器错误",
    details := some message,
    suggestions := ["稍后重试", "检查Cloudflare服务状态",
      "使用离线模式继续工作", "联系Cloudflare支持"],
    canRetry := true, shouldEnableOfflineMode := some true }

/-- `createConfigMissingError`. -/
def createConfigMissingError (message : String) : ErrorInfo :=
  { type := .config, severity := .critical, message := "配置信息缺失",
    details := some message,
    suggestions := ["前往配置页面设置API Token", "确保Account ID已正确填写",
      "检查Worker ID配置", "保存配置后重试"],
    canRetry := false, shouldEnableOfflineMode := none }

/-- `createConfigInvalidError`. -/
def createConfigInvalidError (message : String) : ErrorInfo :=
  { type := .config, severity := .high, message := "配置格式无效",
    details := some message,
    suggestions := ["检查API Token格式", "验证Account ID格式",
      "确认Worker ID格式", "参考官方文档检查配置"],
    canRetry := false, shouldEnableOfflineMode := none }

/-- `createUnknownError`. -/
def createUnknownError (message : String) : ErrorInfo :=
  { type := .unknown, severity := .medium, message := "未知错误",
    details := some message,
    suggestions := ["尝试刷新页面", "检查浏览器控制台获取更多信息",
      "运行网络诊断", "联系技术支持"],
    canRetry := true, shouldEnableOfflineMode := none }

/-- The search string of `analyzeError`:
`` `${errorMessage} ${error?.stack || ''} ${context || ''}` ``. -/
def buildErrorString (error : JsErr) (context : Option String) : String :=
  extractErrorMessage error ++ " " ++ jsErrStack error ++ " " ++
    context.getD ""

/-- `analyzeError` from `errorHandler.ts`: the ordered, first-match-wins
pattern cascade. -/
def analyzeError (error : JsErr) (context : Option String) : ErrorInfo :=
  let errorMessage := extractErrorMessage error
  let errorString := buildErrorString error context
  if NETWORK_FAILED errorString then createNetworkFailedError errorMessage
  else if NETWORK_TIMEOUT errorString then createTimeoutError errorMessage
  else if NETWORK_OFFLINE errorString then createOfflineError errorMessage
  else if DNS_FAILED errorString then createDnsError errorMessage
  else if CORS_ERROR errorString then createCorsError errorMessage
  else if API_UNAUTHORIZED errorString then createAuthError errorMessage
  else if API_FORBIDDEN errorString then createForbiddenError errorMessage
  else if API_NOT_FOUND errorString then createNotFoundError errorMessage
  else if API_RATE_LIMIT errorString then createRateLimitError errorMessage
  else if API_SERVER_ERROR errorString then createServerError errorMessage
  else if CONFIG_MISSING errorString then createConfigMissingError errorMessage
  else if CONFIG_INVALID errorString then createConfigInvalidError errorMessage
  else createUnknownError errorMessage

/-- `shouldRetry` from `errorHandler.ts`. -/
def shouldRetry (errorInfo : ErrorInfo) (retryCount : Nat)
    (maxRetries : Nat := 3) : Bool :=
  if !errorInfo.canRetry || retryCount ≥ maxRetries then false
  else if [ErrType.auth, ErrType.config].contains errorInfo.type then false
  else true

/-- `calculateRetryDelay` from `errorHandler.ts`:
`Math.min(baseDelay * Math.pow(2, retryCount), 10000)`. -/
def calculateRetryDelay (retryCount : Nat) (baseDelay : Nat := 1000) : Nat :=
  min (baseDelay * 2 ^ retryCount) 10000

/-! ## Cache store (`src/utils/offlineManager.ts`) -/

/-- A blob held in `localStorage`.  `JSON.stringify`/`JSON.parse` are
external host functions; a stored string that parses as a
`\x7bdata, timestamp\x7d` cache record is an `entry` (the cached payload
kept as its JSON text), and a stored string on which `JSON.parse` throws
is `corrupt`. -/
inductive Blob where
  | entry (data : String) (timestamp : Int)
  | corrupt (raw : String)
deriving DecidableEq, Repr

/-- The stored string of a blob (used for `stored.length` in
`getCacheStats`): for an entry, `JSON.stringify(\x7bdata, timestamp\x7d)`
with the payload's own JSON text spliced in; for a corrupt blob, the
raw string itself. -/
def Blob.raw : Blob → String
  | .entry d ts =>
    "\x7b\"data\":" ++ d ++ ",\"timestamp\":" ++ toString ts ++ "\x7d"
  | .corrupt r => r

/-- The `localStorage` key-value store: an association list from keys to
blobs (key enumeration order is implementation-defined in the host
API). -/
abbrev Store := List (String × Blob)

/-- `localStorage.getItem`. -/
def storeGet (σ : Store) (k : String) : Option Blob :=
  (σ.find? (fun p => p.1 == k)).map (fun p => p.2)

/-- `localStorage.setItem`: replaces any existing binding of `k`. -/
def storeSet (σ : Store) (k : String) (v : Blob) : Store :=
  (k, v) :: σ.filter (fun p => p.1 != k)

/-- `localStorage.removeItem`. -/
def storeRemove (σ : Store) (k : String) : Store :=
  σ.filter (fun p => p.1 != k)

/-- `CACHE_DURATION`: 24 hours in milliseconds. -/
def CACHE_DURATION : Int := 24 * 60 * 60 * 1000

/-- `cacheData` from `offlineManager.ts`: stores
`\x7bdata, timestamp: Date.now()\x7d` under `cache-<key>` (the silent
quota-failure path of `localStorage.setItem` is outside the model). -/
def cacheData (σ : Store) (key : String) (data : String) (now : Int) :
    Store :=
  storeSet σ ("cache-" ++ key) (.entry data now)

/-- `getCachedData` from `offlineManager.ts`: reads the namespaced
entry, evicts and returns `null` when it is older than
`CACHE_DURATION`; a `JSON.parse` failure is caught, logged and reported
as `null`, with the entry left in place.  Returns the value (if any)
together with the resulting store. -/
def getCachedData (σ : Store) (key : String) (now : Int) :
    Option String × Store :=
  match storeGet σ ("cache-" ++ key) with
  | none => (none, σ)
  | some (.entry d ts) =>
    if now - ts > CACHE_DURATION then (none, storeRemove σ ("cache-" ++ key))
    else (some d, σ)
  | some (.corrupt _) => (none, σ)

/-- JavaScript `String.prototype.startsWith`, modelled on character
lists. -/
def jsStartsWith (s pre : String) : Bool :=
  pre.toList.isPrefixOf s.toList

/-- The `cache-`-namespaced entries of the store, in enumeration order:
`Object.keys(localStorage).filter(key => key.startsWith('cache-'))`. -/
def cacheEntries (σ : Store) : List (String × Blob) :=
  σ.filter (fun p => jsStartsWith p.1 "cache-")

/-- Result record of `getCacheStats`. -/
structure CacheStats where
  totalItems : Nat
  totalSize : Nat
  oldestItem : Option Int
deriving DecidableEq, Repr

/-- The `forEach` fold of `getCacheStats`: accumulates `totalSize` and
`oldestTimestamp` (initialised to `Date.now()`) over the namespaced
entries.  An empty stored string is skipped by the `if (stored)`
truthiness check; a corrupt entry contributes its length (the increment
happens before `JSON.parse` throws) and the per-key `catch` skips only
the timestamp update. -/
def statsFold (entries : List (String × Blob)) (now : Int) : Nat × Int :=
  entries.foldl
    (fun acc p =>
      if p.2.raw = "" then acc
      else
        match p.2 with
        | .entry _ ts =>
          (acc.1 + p.2.raw.length, if ts < acc.2 then ts else acc.2)
        | .corrupt r => (acc.1 + r.length, acc.2))
    (0, now)

/-- `getCacheStats` from `offlineManager.ts`: `totalItems` counts every
namespaced key, `totalSize` and the oldest timestamp come from the
fold, and `oldestItem` is `undefined` exactly when there is no
namespaced key. -/
def getCacheStats (σ : Store) (now : Int) : CacheStats :=
  let cacheKeys := cacheEntries σ
  let folded := statsFold cacheKeys now
  { totalItems := cacheKeys.length
    totalSize := folded.1
    oldestItem := if cacheKeys.length > 0 then some folded.2 else none }

/-! ## Configuration files (`configFile` utilities, `useStore` Config) -/

/-- A JavaScript/JSON value as consumed by `validateConfigFileDetailed`
(which takes `any`).  Arrays are not modelled: no claim involves them. -/
inductive JVal where
  | jundefined
  | jnull
  | jbool (b : Bool)
  | jnum (n : Int)
  | jstr (s : String)
  | jobj (fields : List (String × JVal))
deriving Repr

/-- JavaScript falsiness. -/
def jFalsy : JVal → Bool
  | .jundefined => true
  | .jnull => true
  | .jbool b => !b
  | .jnum n => n == 0
  | .jstr s => s == ""
  | .jobj _ => false

/-- JavaScript truthiness. -/
def jTruthy (v : JVal) : Bool := !(jFalsy v)

/-- JavaScript `typeof`. -/
def jTypeof : JVal → String
  | .jundefined => "undefined"
  | .jnull => "object"
  | .jbool _ => "boolean"
  | .jnum _ => "number"
  | .jstr _ => "string"
  | .jobj _ => "object"

/-- JavaScript property access `v[k]` (`undefined` when absent or when
`v` is not an object). -/
def jGet (v : JVal) (k : String) : JVal :=
  match v with
  | .jobj fs => ((fs.find? (fun p => p.1 == k)).map (fun p => p.2)).getD .jundefined
  | _ => .jundefined

/-- JavaScript `k in v`. -/
def jHas (v : JVal) (k : String) : Bool :=
  match v with
  | .jobj fs => (fs.find? (fun p => p.1 == k)).isSome
  | _ => false

/-- JavaScript `String(v)` coercion (as applied by a template literal or
by `RegExp.test`). -/
def jCoerceString : JVal → String
  | .jundefined => "undefined"
  | .jnull => "null"
  | .jbool true => "true"
  | .jbool false => "false"
  | .jnum n => toString n
  | .jstr s => s
  | .jobj _ => "[object Object]"

/-- JavaScript `v.length < n` for the token-length warning: `false`
whenever `v` is not a string (`undefined < n` is `false`). -/
def jsLengthLt (v : JVal) (n : Nat) : Bool :=
  match v with
  | .jstr s => decide (s.length < n)
  | _ => false

/-- `validRegions` from the config-file validator. -/
def validRegions : List String :=
  ["ap-beijing", "ap-shanghai", "ap-guangzhou", "ap-chengdu", "ap-nanjing",
    "ap-hongkong"]

/-- `validRegions.includes(x)`: strict-equality membership, `false` for
any non-string value. -/
def jStrIncludes (l : List String) (v : JVal) : Bool :=
  match v with
  | .jstr s => l.contains s
  | _ => false

/-- `/^[a-f0-9]\x7b32\x7d$/i.test(s)`: exactly 32 hex characters. -/
def isHex32 (s : String) : Bool :=
  s.length == 32 &&
    s.toList.all (fun c => c.isDigit || ('a' ≤ c.toLower && c.toLower ≤ 'f'))

/-- `requiredFields` of the config-file validator (the 7 named string
fields of `Config`). -/
def requiredFields : List String :=
  ["cloudflareApiToken", "cloudflareAccountId", "cloudflareWorkerId",
    "cosSecretId", "cosSecretKey", "cosBucket", "cosRegion"]

/-- The errors pushed for one required config field: missing, or present
with a non-string value. -/
def requiredFieldErrs (config : JVal) (f : String) : List String :=
  if !(jHas config f) then ["缺少配置字段: " ++ f]
  else if jTypeof (jGet config f) != "string" then
    ["配置字段 " ++ f ++ " 类型错误，应为字符串"]
  else []

/-- Result record of `validateConfigFileDetailed`. -/
structure ValidationResult where
  isValid : Bool
  errors : List String
  warnings : List String
deriving DecidableEq, Repr

/-- `validateConfigFileDetailed` from the config-file utilities.
`new Date(...)` parsing is a host function, passed in as the
`dateOk` capability (`dateOk ts = true` iff
`isNaN(new Date(ts).getTime())` is `false`). -/
def validateConfigFileDetailed (dateOk : String → Bool) (data : JVal) :
    ValidationResult :=
  if jFalsy data || jTypeof data != "object" then
    { isValid := false, errors := ["配置文件格式无效：不是有效的JSON对象"],
      warnings := [] }
  else
    let versionErrs :=
      if jFalsy (jGet data "version") then ["缺少版本信息"]
      else
        match jGet data "version" with
        | .jstr _ => []
        | _ => ["版本信息格式错误"]
    let timestampErrs :=
      if jFalsy (jGet data "timestamp") then ["缺少时间戳"]
      else
        match jGet data "timestamp" with
        | .jstr s => if dateOk s then [] else ["时间戳格式无效"]
        | _ => ["时间戳格式错误"]
    if jFalsy (jGet data "config") then
      { isValid := false,
        errors := versionErrs ++ timestampErrs ++ ["缺少配置信息"],
        warnings := [] }
    else if jTypeof (jGet data "config") != "object" then
      { isValid := false,
        errors := versionErrs ++ timestampErrs ++ ["配置信息格式错误"],
        warnings := [] }
    else
      let config := jGet data "config"
      let fieldErrs := (requiredFields.map (requiredFieldErrs config)).flatten
      let cloudflareFields :=
        ["cloudflareApiToken", "cloudflareAccountId", "cloudflareWorkerId"]
      let hasCloudflareConfig :=
        cloudflareFields.any (fun f => jTruthy (jGet config f))
      let missingCloudflareFields :=
        cloudflareFields.filter (fun f => jFalsy (jGet config f))
      let cfWarns :=
        if hasCloudflareConfig && missingCloudflareFields.length > 0 then
          ["Cloudflare配置不完整，缺少: " ++
            String.intercalate ", " missingCloudflareFields]
        else []
      let cosFields := ["cosSecretId", "cosSecretKey", "cosBucket", "cosRegion"]
      let hasCosConfig := cosFields.any (fun f => jTruthy (jGet config f))
      let missingCosFields :=
        cosFields.filter (fun f => jFalsy (jGet config f))
      let cosWarns :=
        if hasCosConfig && missingCosFields.length > 0 then
          ["腾讯云COS配置不完整，缺少: " ++
            String.intercalate ", " missingCosFields]
        else []
      let regionWarns :=
        if jTruthy (jGet config "cosRegion") &&
            !(jStrIncludes validRegions (jGet config "cosRegion")) then
          ["COS地域 \x27" ++ jCoerceString (jGet config "cosRegion") ++
            "\x27 可能不是有效的地域代码"]
        else []
      let tokenWarns :=
        if jTruthy (jGet config "cloudflareApiToken") &&
            jsLengthLt (jGet config "cloudflareApiToken") 20 then
          ["Cloudflare API Token 长度可能不正确"]
        else []
      let accountWarns :=
        if jTruthy (jGet config "cloudflareAccountId") &&
            !(isHex32 (jCoerceString (jGet config "cloudflareAccountId"))) then
          ["Cloudflare Account ID 格式可能不正确（应为32位十六进制字符串）"]
        else []
      let errors := versionErrs ++ timestampErrs ++ fieldErrs
      { isValid := errors.length == 0
        errors := errors
        warnings := cfWarns ++ cosWarns ++ regionWarns ++ tokenWarns ++
          accountWarns }

/-- `validateConfigFile`: the boolean wrapper used by the importers. -/
def validateConfigFile (dateOk : String → Bool) (data : JVal) : Bool :=
  (validateConfigFileDetailed dateOk data).isValid

/-- The `Config` record of `useStore.ts`: the 7 named string fields. -/
structure Config where
  cloudflareApiToken : String
  cloudflareAccountId : String
  cloudflareWorkerId : String
  cosSecretId : String
  cosSecretKey : String
  cosBucket : String
  cosRegion : String
deriving DecidableEq, Repr

/-- The JSON value of a `Config` (its `JSON.stringify`/`JSON.parse`
image, object key order as declared). -/
def configJVal (c : Config) : JVal :=
  .jobj [("cloudflareApiToken", .jstr c.cloudflareApiToken),
    ("cloudflareAccountId", .jstr c.cloudflareAccountId),
    ("cloudflareWorkerId", .jstr c.cloudflareWorkerId),
    ("cosSecretId", .jstr c.cosSecretId),
    ("cosSecretKey", .jstr c.cosSecretKey),
    ("cosBucket", .jstr c.cosBucket),
    ("cosRegion", .jstr c.cosRegion)]

/-- The JSON value written by `exportConfigToFile`: the serialized
`ConfigFile` record (file download and `JSON.stringify` are host
effects; `nowIso` stands for `new Date().toISOString()`). -/
def exportConfigToFile (config : Config) (nowIso : String) : JVal :=
  .jobj [("version", .jstr "1.0.0"),
    ("timestamp", .jstr nowIso),
    ("config", configJVal config),
    ("metadata", .jobj [("exportedBy", .jstr "Version Manager"),
      ("description", .jstr "API配置文件导出")])]

/-- The parse-and-validate core of `importConfigFromFile`: given the
`JSON.parse` image of the selected file, rejects unless
`validateConfigFile` accepts, else resolves `data.config`. -/
def importConfigFromFile (dateOk : String → Bool) (data : JVal) :
    Except String JVal :=
  if validateConfigFile dateOk data then .ok (jGet data "config")
  else .error "配置文件格式无效"

/-! ## Network diagnostics (`networkDiagnostics`, same source file as the
error handler) -/

/-- A probe result (`NetworkDiagnosticResult`). -/
structure NetworkDiagnosticResult where
  success : Bool
  message : String
  details : Option JVal
  timestamp : Int
  duration : Option Int
deriving Repr

/-- The `overall` summary of a `DiagnosticReport`. -/
inductive OverallStatus where
  | healthy | degraded | failed
deriving BEq, DecidableEq, Repr

/-- The `overall` record of a `DiagnosticReport`. -/
structure OverallResult where
  status : OverallStatus
  issues : List String
  recommendations : List String
deriving DecidableEq, Repr

/-- `DiagnosticReport` from `networkDiagnostics`. -/
structure DiagnosticReport where
  basicConnectivity : NetworkDiagnosticResult
  dnsResolution : NetworkDiagnosticResult
  cloudflareApi : NetworkDiagnosticResult
  corsSupport : NetworkDiagnosticResult
  overall : OverallResult
deriving Repr

/-- The aggregation step of `generateDiagnosticReport`: the four probes
run concurrently (network I/O, outside the model) and their four results
are folded, in the fixed order connectivity → dns → api → cors, into the
`issues`/`recommendations` lists and the overall status.  `apiToken` is
the optional token argument (only its truthiness is consulted, to choose
the API recommendation). -/
def generateDiagnosticReport (basicConnectivity dnsResolution cloudflareApi
    corsSupport : NetworkDiagnosticResult) (apiToken : Option String) :
    DiagnosticReport :=
  let issues :=
    (if !basicConnectivity.success then ["基础网络连接失败"] else []) ++
      (if !dnsResolution.success then ["DNS解析失败"] else []) ++
      (if !cloudflareApi.success then ["Cloudflare API连接失败"] else []) ++
      (if !corsSupport.success then ["CORS支持异常"] else [])
  let recommendations :=
    (if !basicConnectivity.success then ["检查网络连接和防火墙设置"] else []) ++
      (if !dnsResolution.success then
        ["检查DNS设置，尝试使用8.8.8.8或1.1.1.1"] else []) ++
      (if !cloudflareApi.success then
        (if (pickTruthy apiToken).isSome then ["检查API Token有效性和权限设置"]
          else ["配置有效的Cloudflare API Token"]) else []) ++
      (if !corsSupport.success then ["检查浏览器CORS设置或使用代理"] else [])
  let overallStatus :=
    if basicConnectivity.success && cloudflareApi.success then
      (if issues.length == 0 then OverallStatus.healthy
        else OverallStatus.degraded)
    else OverallStatus.failed
  { basicConnectivity, dnsResolution, cloudflareApi, corsSupport,
    overall := ⟨overallStatus, issues, recommendations⟩ }

/-- A failing basic-connectivity probe result (zero endpoints
reachable), as produced by `testBasicConnectivity`. -/
def probeBasicFail : NetworkDiagnosticResult :=
  { success := false, message := "🚫 无法连接到任何测试端点，请检查网络连接",
    details := none, timestamp := 0, duration := some 120 }

/-- A succeeding DNS probe result. -/
def probeDnsOk : NetworkDiagnosticResult :=
  { success := true, message := "✅ DNS解析正常 (60ms)",
    details := none, timestamp := 0, duration := some 60 }

/-- A succeeding API probe result. -/
def probeApiOk : NetworkDiagnosticResult :=
  { success := true, message := "✅ Cloudflare API端点可达 (80ms)",
    details := none, timestamp := 0, duration := some 80 }

/-- A succeeding CORS probe result. -/
def probeCorsOk : NetworkDiagnosticResult :=
  { success := true, message := "✅ CORS支持正常 (40ms)",
    details := none, timestamp := 0, duration := some 40 }

/-! ## Helper lemmas -/

theorem toList_append (a b : String) : (a ++ b).toList = a.toList ++ b.toList := by
  simp [String.toList, String.data_append]

theorem containsCI_append_right (a b pat : String)
    (h : containsCI a pat = true) : containsCI (a ++ b) pat = true := by
  unfold containsCI lowerChars at h ⊢
  rw [toList_append, List.map_append]
  have h' := of_decide_eq_true h
  exact decide_eq_true (h'.trans ((List.prefix_append _ _).isInfix))

theorem containsCI_buildErrorString (e : JsErr) (c : Option String)
    (pat : String) (h : containsCI (extractErrorMessage e) pat = true) :
    containsCI (buildErrorString e c) pat = true := by
  unfold buildErrorString
  exact containsCI_append_right _ _ _ (containsCI_append_right _ _ _
    (containsCI_append_right _ _ _ (containsCI_append_right _ _ _ h)))

theorem storeGet_storeSet_self (σ : Store) (k : String) (v : Blob) :
    storeGet (storeSet σ k v) k = some v := by
  simp [storeGet, storeSet]

theorem storeGet_storeRemove (σ : Store) (k : String) :
    storeGet (storeRemove σ k) k = none := by
  unfold storeGet storeRemove
  simp only [Option.map_eq_none', List.find?_eq_none]
  intro x hx
  have hne := (List.mem_filter.mp hx).2
  simpa using hne

theorem listIsPrefixOf_append (a b : List Char) :
    a.isPrefixOf (a ++ b) = true := by
  induction a with
  | nil => simp
  | cons hd tl ih => simp [List.isPrefixOf_cons₂, ih]

theorem jsStartsWith_append (a b : String) :
    jsStartsWith (a ++ b) a = true := by
  unfold jsStartsWith
  rw [toList_append]
  exact listIsPrefixOf_append _ _

theorem statsFold_append_corrupt (es : List (String × Blob))
    (key raw : String) (now : Int) (h : raw ≠ "") :
    statsFold (es ++ [(key, Blob.corrupt raw)]) now =
      ((statsFold es now).1 + raw.length, (statsFold es now).2) := by
  unfold statsFold
  rw [List.foldl_append]
  simp [Blob.raw, h]

/-! ### Claim theorems: error classifier -/

/-- C5: whenever the extracted error message contains `"Failed to fetch"`
(case-insensitively), `analyzeError` returns the network-failure
diagnosis — `type = network`, `canRetry = true`,
`shouldEnableOfflineMode = true` — regardless of the rest of the
message/stack/context string (the `NETWORK_FAILED` pattern is tested
first, first match wins). -/
theorem analyzeError_failed_to_fetch (e : JsErr) (c : Option String)
    (h : containsCI (extractErrorMessage e) "Failed to fetch" = true) :
    (analyzeError e c).type = ErrType.network ∧
      (analyzeError e c).canRetry = true ∧
      (analyzeError e c).shouldEnableOfflineMode = some true := by
  have hs : containsCI (buildErrorString e c) "Failed to fetch" = true :=
    containsCI_buildErrorString e c _ h
  have hN : NETWORK_FAILED (buildErrorString e c) = true := by
    unfold NETWORK_FAILED
    rw [hs]
    simp
  simp [analyzeError, hN, createNetworkFailedError]

/-- Witness for C5 at the concrete error `"request Failed To Fetch now"`. -/
theorem analyzeError_failed_to_fetch_witness :
    containsCI (extractErrorMessage (JsErr.str "request Failed To Fetch now"))
        "Failed to fetch" = true ∧
      (analyzeError (JsErr.str "request Failed To Fetch now") none).type =
        ErrType.network ∧
      (analyzeError (JsErr.str "request Failed To Fetch now") none).canRetry =
        true ∧
      (analyzeError (JsErr.str "request Failed To Fetch now")
            none).shouldEnableOfflineMode = some true :=
  ⟨by decide,
   analyzeError_failed_to_fetch (JsErr.str "request Failed To Fetch now")
     none (by decide)⟩

/-- C6: `shouldRetry` returns `false` for every diagnosis of type `auth`
or `config`, for every retry count and every retry maximum. -/
theorem shouldRetry_auth_config (info : ErrorInfo) (rc mr : Nat)
    (h : info.type = ErrType.auth ∨ info.type = ErrType.config) :
    shouldRetry info rc mr = false := by
  unfold shouldRetry
  split
  · rfl
  · rcases h with h | h <;> rw [h] <;> decide

/-- Witness for C6: the auth diagnosis at retry count 0 of max 3. -/
theorem shouldRetry_auth_config_witness :
    ((createAuthError "401").type = ErrType.auth ∨
        (createAuthError "401").type = ErrType.config) ∧
      shouldRetry (createAuthError "401") 0 3 = false :=
  ⟨Or.inl rfl, shouldRetry_auth_config (createAuthError "401") 0 3 (Or.inl rfl)⟩

/-- C7: `calculateRetryDelay` is the capped exponential backoff
`min(baseDelay * 2 ^ retryCount, 10000)`; with the default base of
1000 ms it gives 1000 at count 0, 8000 at count 3 and the 10000 cap at
count 10. -/
theorem calculateRetryDelay_spec (rc base : Nat) :
    calculateRetryDelay rc base = min (base * 2 ^ rc) 10000 ∧
      calculateRetryDelay 0 = 1000 ∧
      calculateRetryDelay 3 = 8000 ∧
      calculateRetryDelay 10 = 10000 :=
  ⟨rfl, by decide, by decide, by decide⟩

/-- C9: `analyzeError` is deterministic — equal inputs give structurally
equal `ErrorInfo` results.  Side-effect freedom is reflected by the
embedding itself: the source function reads no mutable state, so it
embeds as a pure function of the error value and context alone. -/
theorem analyzeError_deterministic (e1 e2 : JsErr) (c1 c2 : Option String)
    (h1 : e1 = e2) (h2 : c1 = c2) : analyzeError e1 c1 = analyzeError e2 c2 := by
  subst h1
  subst h2
  rfl

/-- Witness for C9 at a concrete error and context. -/
theorem analyzeError_deterministic_witness :
    analyzeError (JsErr.obj (some "boom") none none none) (some "ctx") =
      analyzeError (JsErr.obj (some "boom") none none none) (some "ctx") :=
  analyzeError_deterministic _ _ _ _ rfl rfl

/-! ### Claim theorems: cache store -/

/-- C2: `cacheData(k, v)` at time `t` followed by `getCachedData(k)` at
time `now` returns `v` while `now - t ≤ CACHE_DURATION` (86 400 000 ms);
once `now - t > CACHE_DURATION`, it returns `null` and deletes the
entry from the store. -/
theorem cacheData_getCachedData_roundtrip (σ : Store) (k v : String)
    (t now : Int) :
    (now - t ≤ CACHE_DURATION →
        getCachedData (cacheData σ k v t) k now =
          (some v, cacheData σ k v t)) ∧
      (now - t > CACHE_DURATION →
        getCachedData (cacheData σ k v t) k now =
            (none, storeRemove (cacheData σ k v t) ("cache-" ++ k)) ∧
          storeGet (getCachedData (cacheData σ k v t) k now).2
            ("cache-" ++ k) = none) := by
  have hget : storeGet (cacheData σ k v t) ("cache-" ++ k) =
      some (.entry v t) := storeGet_storeSet_self σ _ _
  constructor
  · intro h
    simp only [getCachedData, hget]
    rw [if_neg (by omega)]
  · intro h
    have heq : getCachedData (cacheData σ k v t) k now =
        (none, storeRemove (cacheData σ k v t) ("cache-" ++ k)) := by
      simp only [getCachedData, hget]
      rw [if_pos (by omega)]
    refine ⟨heq, ?_⟩
    rw [heq]
    exact storeGet_storeRemove _ _

/-- Witness for C2: a fresh read at exactly the TTL returns the value;
a read 1 ms past the TTL is absent and the entry is gone. -/
theorem cacheData_getCachedData_roundtrip_witness :
    getCachedData (cacheData [] "version-info" "v1" 0) "version-info"
        86400000 = (some "v1", cacheData [] "version-info" "v1" 0) ∧
      getCachedData (cacheData [] "version-info" "v1" 0) "version-info"
          86400001 =
        (none,
          storeRemove (cacheData [] "version-info" "v1" 0)
            ("cache-" ++ "version-info")) :=
  ⟨(cacheData_getCachedData_roundtrip [] "version-info" "v1" 0 86400000).1
      (by decide),
    ((cacheData_getCachedData_roundtrip [] "version-info" "v1" 0 86400001).2
        (by decide)).1⟩

/-- C3 counterexample: on a corrupt blob under `cache-wk`,
`getCachedData("wk")` returns `null` but the corrupt entry is *not*
removed from the store — the `catch` branch only logs. -/
theorem getCachedData_corrupt_counterexample :
    (getCachedData [("cache-wk", Blob.corrupt "oops")] "wk" 0).1 = none ∧
      ¬ storeGet (getCachedData [("cache-wk", Blob.corrupt "oops")] "wk" 0).2
          "cache-wk" = none := by
  constructor
  · decide
  · decide

/-- C3 (amended): when the stored blob under `cache-<k>` fails to
deserialize, `getCachedData(k)` returns `null` and leaves the store
unchanged — the corrupt entry stays in place (removal of corrupt
entries happens only in `cleanExpiredCache`). -/
theorem getCachedData_corrupt_left_in_place (σ : Store) (k raw : String)
    (now : Int) (h : storeGet σ ("cache-" ++ k) = some (Blob.corrupt raw)) :
    getCachedData σ k now = (none, σ) := by
  simp only [getCachedData, h]

/-- Witness for the amended C3 at a concrete corrupt store. -/
theorem getCachedData_corrupt_left_in_place_witness :
    storeGet [("cache-wk", Blob.corrupt "oops")] ("cache-" ++ "wk") =
        some (Blob.corrupt "oops") ∧
      getCachedData [("cache-wk", Blob.corrupt "oops")] "wk" 7 =
        (none, [("cache-wk", Blob.corrupt "oops")]) :=
  ⟨by decide,
    getCachedData_corrupt_left_in_place [("cache-wk", Blob.corrupt "oops")]
      "wk" "oops" 7 (by decide)⟩

/-- C4 counterexample: a store holding one corrupt namespaced entry of
length 3 yields `totalItems = 1`, `totalSize = 3` and a defined
`oldestItem`, while the empty store yields `(0, 0, undefined)` — the
corrupt entry is counted, not skipped. -/
theorem getCacheStats_corrupt_counterexample :
    getCacheStats [("cache-x", Blob.corrupt "bad")] 5 =
        ⟨1, 3, some 5⟩ ∧
      getCacheStats ([] : Store) 5 = ⟨0, 0, none⟩ := by
  constructor
  · decide
  · decide

/-- C4 (amended): a corrupt namespaced entry is *not* skipped by the
item count or the byte size: adding one raises `totalItems` by 1 and
`totalSize` by the corrupt string's length; only the oldest-timestamp
fold is unaffected by it. -/
theorem getCacheStats_corrupt_contribution (σ : Store) (k raw : String)
    (now : Int) (h : raw ≠ "") :
    (getCacheStats (σ ++ [("cache-" ++ k, Blob.corrupt raw)]) now).totalItems
        = (getCacheStats σ now).totalItems + 1 ∧
      (getCacheStats (σ ++ [("cache-" ++ k, Blob.corrupt raw)]) now).totalSize
        = (getCacheStats σ now).totalSize + raw.length ∧
      (statsFold (cacheEntries (σ ++ [("cache-" ++ k, Blob.corrupt raw)]))
            now).2
        = (statsFold (cacheEntries σ) now).2 := by
  have hx : cacheEntries (σ ++ [("cache-" ++ k, Blob.corrupt raw)]) =
      cacheEntries σ ++ [("cache-" ++ k, Blob.corrupt raw)] := by
    unfold cacheEntries
    rw [List.filter_append]
    simp [jsStartsWith_append]
  refine ⟨?_, ?_, ?_⟩ <;>
    simp [getCacheStats, hx, statsFold_append_corrupt _ _ _ _ h]

/-- Witness for the amended C4: adding the corrupt entry `"bad"` to a
one-entry store bumps the count to 2 and the size by 3, and leaves the
oldest-timestamp fold at the live entry's timestamp. -/
theorem getCacheStats_corrupt_contribution_witness :
    ("bad" ≠ "") ∧
      (getCacheStats
            ([("cache-a", Blob.entry "1" 2)] ++
              [("cache-" ++ "x", Blob.corrupt "bad")]) 5).totalItems =
        (getCacheStats [("cache-a", Blob.entry "1" 2)] 5).totalItems + 1 ∧
      (getCacheStats
            ([("cache-a", Blob.entry "1" 2)] ++
              [("cache-" ++ "x", Blob.corrupt "bad")]) 5).totalSize =
        (getCacheStats [("cache-a", Blob.entry "1" 2)] 5).totalSize + 3 ∧
      (statsFold
            (cacheEntries
              ([("cache-a", Blob.entry "1" 2)] ++
                [("cache-" ++ "x", Blob.corrupt "bad")])) 5).2 =
        (statsFold (cacheEntries [("cache-a", Blob.entry "1" 2)]) 5).2 :=
  ⟨by decide,
    (getCacheStats_corrupt_contribution [("cache-a", Blob.entry "1" 2)] "x"
      "bad" 5 (by decide)).1,
    (getCacheStats_corrupt_contribution [("cache-a", Blob.entry "1" 2)] "x"
      "bad" 5 (by decide)).2.1,
    (getCacheStats_corrupt_contribution [("cache-a", Blob.entry "1" 2)] "x"
      "bad" 5 (by decide)).2.2⟩


/-! ### Claim theorems: network diagnostics -/

/-- C1 counterexample: with the basic-connectivity probe failed and the
DNS, API and CORS probes succeeding, `generateDiagnosticReport` reports
`overall.status = failed`, not `degraded` as claimed (the overall-status
rule sends any basic-connectivity failure to the `failed` branch); the
issues list is indeed the single basic-connectivity entry. -/
theorem generateDiagnosticReport_basic_fail_counterexample :
    (generateDiagnosticReport probeBasicFail probeDnsOk probeApiOk
          probeCorsOk none).overall.status = OverallStatus.failed ∧
      (generateDiagnosticReport probeBasicFail probeDnsOk probeApiOk
          probeCorsOk none).overall.issues = ["基础网络连接失败"] ∧
      OverallStatus.failed ≠ OverallStatus.degraded :=
  ⟨rfl, rfl, by decide⟩

/-- C1 (amended): for every run in which the basic-connectivity probe
fails and the DNS, API and CORS probes succeed, the report has
`overall.status = failed` and `overall.issues` is the single-entry list
`["基础网络连接失败"]`. -/
theorem generateDiagnosticReport_basic_fail (b d a c :
    NetworkDiagnosticResult) (tok : Option String) (hb : b.success = false)
    (hd : d.success = true) (ha : a.success = true) (hc : c.success = true) :
    (generateDiagnosticReport b d a c tok).overall.status =
        OverallStatus.failed ∧
      (generateDiagnosticReport b d a c tok).overall.issues =
        ["基础网络连接失败"] := by
  constructor <;> simp [generateDiagnosticReport, hb, hd, ha, hc]

/-- Witness for the amended C1 at the concrete probe results. -/
theorem generateDiagnosticReport_basic_fail_witness :
    probeBasicFail.success = false ∧
      (generateDiagnosticReport probeBasicFail probeDnsOk probeApiOk
          probeCorsOk (some "tok")).overall.status = OverallStatus.failed ∧
      (generateDiagnosticReport probeBasicFail probeDnsOk probeApiOk
          probeCorsOk (some "tok")).overall.issues = ["基础网络连接失败"] :=
  ⟨rfl,
    (generateDiagnosticReport_basic_fail probeBasicFail probeDnsOk probeApiOk
        probeCorsOk (some "tok") rfl rfl rfl rfl).1,
    (generateDiagnosticReport_basic_fail probeBasicFail probeDnsOk probeApiOk
        probeCorsOk (some "tok") rfl rfl rfl rfl).2⟩

/-! ### Claim theorems: configuration files -/

theorem jGet_jobj (fs : List (String × JVal)) (k : String) :
    jGet (.jobj fs) k =
      ((fs.find? (fun p => p.1 == k)).map (fun p => p.2)).getD .jundefined := rfl

theorem jHas_jobj (fs : List (String × JVal)) (k : String) :
    jHas (.jobj fs) k = (fs.find? (fun p => p.1 == k)).isSome := rfl

theorem requiredFieldErrs_nil (cfg : List (String × JVal)) (l : List String)
    (h : ∀ f ∈ l, ∃ s, jGet (.jobj cfg) f = .jstr s) :
    (l.map (requiredFieldErrs (.jobj cfg))).flatten = [] := by
  induction l with
  | nil => rfl
  | cons hd tl ih =>
    obtain ⟨s, hs⟩ := h hd (by simp)
    have hhas : jHas (.jobj cfg) hd = true := by
      rw [jGet_jobj] at hs
      rw [jHas_jobj]
      cases hfind : cfg.find? (fun p => p.1 == hd) with
      | none => rw [hfind] at hs; simp at hs
      | some p => simp
    have htl := ih (fun f hf => h f (by simp [hf]))
    simp [requiredFieldErrs, hhas, hs, jTypeof, htl]

/-- C10: `validateConfigFileDetailed` accepts every config file whose
`version` is a non-empty string, whose `timestamp` is a (non-empty)
string accepted by the host date parser, and whose `config` object
binds all 7 required fields to strings — even when every one of those
strings is empty; no error is produced (`errors = []`), so emptiness
and malformed token/account-ID/region shapes can surface only as
warnings. -/
theorem validateConfigFileDetailed_accepts (dateOk : String → Bool)
    (dataFields cfgFields : List (String × JVal)) (v ts : String)
    (hv : jGet (.jobj dataFields) "version" = .jstr v) (hvne : v ≠ "")
    (hts : jGet (.jobj dataFields) "timestamp" = .jstr ts) (htsne : ts ≠ "")
    (hdate : dateOk ts = true)
    (hcfg : jGet (.jobj dataFields) "config" = .jobj cfgFields)
    (hfields : ∀ f ∈ requiredFields, ∃ s,
      jGet (.jobj cfgFields) f = .jstr s) :
    (validateConfigFileDetailed dateOk (.jobj dataFields)).isValid = true ∧
      (validateConfigFileDetailed dateOk (.jobj dataFields)).errors = [] := by
  have hfe := requiredFieldErrs_nil cfgFields requiredFields hfields
  constructor <;>
    simp [validateConfigFileDetailed, jFalsy, jTypeof, hv, hts, hcfg, hvne,
      htsne, hdate, hfe]

/-- Witness for C10: the all-empty-fields config file is accepted. -/
theorem validateConfigFileDetailed_accepts_witness :
    (validateConfigFileDetailed (fun _ => true)
          (.jobj [("version", .jstr "1.0.0"),
            ("timestamp", .jstr "2024-01-01T00:00:00.000Z"),
            ("config", .jobj [("cloudflareApiToken", .jstr ""),
              ("cloudflareAccountId", .jstr ""),
              ("cloudflareWorkerId", .jstr ""),
              ("cosSecretId", .jstr ""),
              ("cosSecretKey", .jstr ""),
              ("cosBucket", .jstr ""),
              ("cosRegion", .jstr "")])])).isValid = true :=
  (validateConfigFileDetailed_accepts (fun _ => true)
    [("version", .jstr "1.0.0"),
      ("timestamp", .jstr "2024-01-01T00:00:00.000Z"),
      ("config", .jobj [("cloudflareApiToken", .jstr ""),
        ("cloudflareAccountId", .jstr ""),
        ("cloudflareWorkerId", .jstr ""),
        ("cosSecretId", .jstr ""),
        ("cosSecretKey", .jstr ""),
        ("cosBucket", .jstr ""),
        ("cosRegion", .jstr "")])]
    [("cloudflareApiToken", .jstr ""),
      ("cloudflareAccountId", .jstr ""),
      ("cloudflareWorkerId", .jstr ""),
      ("cosSecretId", .jstr ""),
      ("cosSecretKey", .jstr ""),
      ("cosBucket", .jstr ""),
      ("cosRegion", .jstr "")]
    "1.0.0"
    "2024-01-01T00:00:00.000Z" rfl (by decide) rfl (by decide) rfl rfl
    (by
      intro f hf
      simp only [requiredFields, List.mem_cons, List.not_mem_nil, or_false]
        at hf
      rcases hf with rfl | rfl | rfl | rfl | rfl | rfl | rfl <;>
        exact ⟨"", rfl⟩)).1

/-- C8: exporting any 7-field configuration record with
`exportConfigToFile` and importing the exported file with
`importConfigFromFile` (which parses and validates) succeeds and yields
a config equal to the original in all 7 fields (the export timestamp
`new Date().toISOString()` is a non-empty string the date parser
accepts). -/
theorem exportConfigToFile_importConfigFromFile_roundtrip (config : Config)
    (nowIso : String) (dateOk : String → Bool) (h1 : nowIso ≠ "")
    (h2 : dateOk nowIso = true) :
    importConfigFromFile dateOk (exportConfigToFile config nowIso) =
      .ok (configJVal config) := by
  have hok := validateConfigFileDetailed_accepts dateOk
    [("version", .jstr "1.0.0"), ("timestamp", .jstr nowIso),
      ("config", configJVal config),
      ("metadata", .jobj [("exportedBy", .jstr "Version Manager"),
        ("description", .jstr "API配置文件导出")])]
    [("cloudflareApiToken", .jstr config.cloudflareApiToken),
      ("cloudflareAccountId", .jstr config.cloudflareAccountId),
      ("cloudflareWorkerId", .jstr config.cloudflareWorkerId),
      ("cosSecretId", .jstr config.cosSecretId),
      ("cosSecretKey", .jstr config.cosSecretKey),
      ("cosBucket", .jstr config.cosBucket),
      ("cosRegion", .jstr config.cosRegion)]
    "1.0.0" nowIso rfl (by decide) rfl h1 h2 rfl
    (by
      intro f hf
      simp only [requiredFields, List.mem_cons, List.not_mem_nil, or_false]
        at hf
      rcases hf with rfl | rfl | rfl | rfl | rfl | rfl | rfl <;>
        exact ⟨_, rfl⟩)
  unfold importConfigFromFile validateConfigFile
  rw [show exportConfigToFile config nowIso =
    .jobj [("version", .jstr "1.0.0"), ("timestamp", .jstr nowIso),
      ("config", configJVal config),
      ("metadata", .jobj [("exportedBy", .jstr "Version Manager"),
        ("description", .jstr "API配置文件导出")])] from rfl]
  rw [hok.1]
  rfl

/-- Witness for C8 at a concrete configuration and export timestamp. -/
theorem exportConfigToFile_importConfigFromFile_roundtrip_witness :
    importConfigFromFile (fun _ => true)
        (exportConfigToFile
          ⟨"tok", "acct", "wk", "sid", "skey", "bucket", "ap-chengdu"⟩
          "2024-01-01T00:00:00.000Z") =
      .ok (configJVal
        ⟨"tok", "acct", "wk", "sid", "skey", "bucket", "ap-chengdu"⟩) :=
  exportConfigToFile_importConfigFromFile_roundtrip
    ⟨"tok", "acct", "wk", "sid", "skey", "bucket", "ap-chengdu"⟩
    "2024-01-01T00:00:00.000Z" (fun _ => true) (by decide) rfl
